import Mathlib

set_option maxRecDepth 4000

/-!
Verification of the AI-NewsLetter frontend session state machine.

The definitions below are a shallow embedding of the React page component
(`app/page.tsx`, the file with `getHighlights`, `resetSummaries`,
`openTweetEditor`, `sendTweetMessage`, `acceptTweetUpdate`,
`rejectTweetUpdate` and the pagination handlers) and of the conversation
persistence effects of `EditorModal`.  React `useState` fields become the
fields of `PageState`; each handler becomes a pure function on `PageState`;
an asynchronous handler is split into a start phase (what happens before the
`fetch`, plus the request payload it would send) and a resolve phase (what
the `.then` continuation does to the state current at resolution time).
-/

namespace AINewsletter

/-- An article as fetched from the aggregation endpoint:
`{title, link, summary?, published?, source?}`. -/
structure Article where
  title : String
  link : String
  summary : Option String
  published : Option String
  source : Option String
deriving DecidableEq, Repr

/-- A highlight item returned by the summaries endpoint:
`{title, link, source?, summary}`. -/
structure Highlight where
  title : String
  link : String
  source : Option String
  summary : String
deriving DecidableEq, Repr

/-- A generated tweet:
`{id, content, summary_title, summary_link, summary_source}`. -/
structure Tweet where
  id : String
  content : String
  summary_title : String
  summary_link : String
  summary_source : String
deriving DecidableEq, Repr

/-- One conversation turn `{role, content}`. -/
structure Turn where
  role : String
  content : String
deriving DecidableEq, Repr

/-- The edit target union type of the page:
`'summary' | tweet-n | 'newsletter'`. -/
inductive EditTarget where
  | summary
  | tweet (idx : Nat)
  | newsletter
deriving DecidableEq, Repr

/-- The `useState` fields of the page component.  `pageIndex` is an `Int`
because the JavaScript handlers compute `Math.min(length - 1, i + 1)`,
which can go below zero on an empty list. -/
structure PageState where
  sessionId : String
  sources : List String
  articles : List Article
  summary : String
  tweets : List Tweet
  newsletterHtml : String
  loading : Bool
  loadingHighlights : Bool
  loadingSummaries : Bool
  loadingTweets : Bool
  loadingNewsletter : Bool
  summariesMode : Bool
  pageIndex : Int
  highlights : List Highlight
  selectedArticles : List String
  isPaginated : Bool
  currentEditingTweetId : Option String
  tweetConversations : List (String × List Turn)
  pendingTweetUpdate : Option String
  editorOpen : Bool
  editorTitle : String
  editorText : String
  editTarget : EditTarget
deriving DecidableEq, Repr

/-- The initial state produced by the `useState` initializers of the page. -/
def initialState (sessionId : String) : PageState :=
  { sessionId := sessionId
    sources := []
    articles := []
    summary := ""
    tweets := []
    newsletterHtml := ""
    loading := false
    loadingHighlights := false
    loadingSummaries := false
    loadingTweets := false
    loadingNewsletter := false
    summariesMode := false
    pageIndex := 0
    highlights := []
    selectedArticles := []
    isPaginated := true
    currentEditingTweetId := none
    tweetConversations := []
    pendingTweetUpdate := none
    editorOpen := false
    editorTitle := "Editor"
    editorText := ""
    editTarget := EditTarget.summary }

/-- Keyed update, modelling both the JavaScript object spread
`{...prev, [k]: v}` used for `tweetConversations` and
`localStorage.setItem(k, v)`: an existing key keeps its position and gets
the new value, a fresh key is appended. -/
def recordSet {α : Type} (r : List (String × α)) (k : String) (v : α) :
    List (String × α) :=
  if r.any (fun p => p.1 == k) then
    r.map (fun p => if p.1 == k then (k, v) else p)
  else
    r ++ [(k, v)]

/-- Keyed lookup, modelling `obj[k]` / `localStorage.getItem(k)`. -/
def recordGet {α : Type} (r : List (String × α)) (k : String) : Option α :=
  (r.find? (fun p => p.1 == k)).map (fun p => p.2)

/-- Result of the synchronous part of `getHighlights` (page lines 88-117):
either the selection-limit alert with an early return, or the `fetch` to
`/summaries_selected` carrying the selected article objects. -/
inductive GetHighlightsStart where
  | limitExceeded
  | call (articles : List Article)
deriving DecidableEq, Repr

/-- The part of `getHighlights` that runs before the response arrives.
The code checks only `selectedArticles.length > 5`; otherwise it sets
`loadingSummaries` and issues the request with
`articles.filter(a => selectedArticles.includes(a.link))`. -/
def getHighlightsStart (s : PageState) : PageState × GetHighlightsStart :=
  if 5 < s.selectedArticles.length then
    (s, GetHighlightsStart.limitExceeded)
  else
    ({ s with loadingSummaries := true },
     GetHighlightsStart.call
       (s.articles.filter (fun a => s.selectedArticles.contains a.link)))

/-- The continuation of `getHighlights` applied to the response items:
clears the loading flag, replaces the highlight list, enters summaries
mode, and sets the page cursor to 0. -/
def getHighlightsResolve (s : PageState) (items : List Highlight) : PageState :=
  { s with
    loadingSummaries := false
    highlights := items
    summariesMode := true
    pageIndex := 0 }

/-- `resetSummaries` (page lines 119-129), field for field. -/
def resetSummaries (s : PageState) : PageState :=
  { s with
    summariesMode := false
    summary := ""
    articles := []
    tweets := []
    newsletterHtml := ""
    pageIndex := 0
    highlights := []
    selectedArticles := []
    isPaginated := true }

/-- Request payload of the `fetch` issued by `makeTweets`. -/
structure TweetsCall where
  session_id : String
  summaries : List Highlight
deriving DecidableEq, Repr

/-- The part of `makeTweets` (page lines 147-167) that runs before the
response: it sets `loadingTweets` and always issues the request; the code
contains no check of the `loadingTweets` flag. -/
def makeTweetsStart (s : PageState) : PageState × Option TweetsCall :=
  ({ s with loadingTweets := true },
   some { session_id := s.sessionId, summaries := s.highlights })

/-- Request payload of the `fetch` issued by `makeNewsletter`. -/
structure NewsletterCall where
  session_id : String
  summary_markdown : String
  articles : List Article
deriving DecidableEq, Repr

/-- The part of `makeNewsletter` (page lines 169-182) that runs before the
response; again there is no in-flight flag check in the function body. -/
def makeNewsletterStart (s : PageState) : PageState × Option NewsletterCall :=
  ({ s with loadingNewsletter := true },
   some { session_id := s.sessionId, summary_markdown := s.summary,
          articles := s.articles })

/-- `openTweetEditor` (page lines 200-209): clicking the already-active
tweet closes the editor, otherwise the clicked tweet becomes the active
target; either way the pending update is cleared. -/
def openTweetEditor (s : PageState) (tweet : Tweet) : PageState :=
  if s.currentEditingTweetId == some tweet.id then
    { s with currentEditingTweetId := none, pendingTweetUpdate := none }
  else
    { s with currentEditingTweetId := some tweet.id, pendingTweetUpdate := none }

/-- Request payload of the `fetch` to `/edit_tweet` issued by
`sendTweetMessage`. -/
structure SendCall where
  session_id : String
  tweet_id : String
  current_tweet : String
  original_summary : String
  user_message : String
  conversation_history : List Turn
deriving DecidableEq, Repr

/-- Response body of `/edit_tweet`. -/
structure EditResponse where
  new_tweet : String
  conversation_history : List Turn
  ai_response : String
deriving DecidableEq, Repr

/-- The part of `sendTweetMessage` (page lines 211-247) that runs before
the response.  It returns the request payload, or `none` on the early
returns (`!currentEditingTweetId`, which in JavaScript is also true for
the empty string, or no tweet with that id).  No state is mutated before
the response arrives. -/
def sendTweetMessageStart (s : PageState) (message : String) : Option SendCall :=
  match s.currentEditingTweetId with
  | none => none
  | some cid =>
    if cid.isEmpty then none
    else
      match s.tweets.find? (fun t => t.id == cid) with
      | none => none
      | some t =>
        some { session_id := s.sessionId
               tweet_id := t.id
               current_tweet := t.content
               original_summary :=
                 ((s.highlights.find? (fun h => h.link == t.summary_link)).map
                   (fun h => h.summary)).getD ""
               user_message := message
               conversation_history :=
                 (recordGet s.tweetConversations t.id).getD [] }

/-- The continuation of `sendTweetMessage` applied at resolution time to
whatever state is then current: it stores the proposed text in
`pendingTweetUpdate` and overwrites the conversation entry of the tweet id
captured at call time.  The code performs no re-check that this id is
still the active edit target. -/
def sendTweetMessageResolve (s : PageState) (capturedId : String)
    (resp : EditResponse) : PageState :=
  { s with
    pendingTweetUpdate := some resp.new_tweet
    tweetConversations :=
      recordSet s.tweetConversations capturedId resp.conversation_history }

/-- `acceptTweetUpdate` (page lines 249-260): early return when
`currentEditingTweetId` or `pendingTweetUpdate` is falsy (null or the
empty string); otherwise the active tweet's content is replaced by the
pending text and the pending slot is cleared.  There is no length check. -/
def acceptTweetUpdate (s : PageState) : PageState :=
  match s.currentEditingTweetId, s.pendingTweetUpdate with
  | some cid, some upd =>
    if cid.isEmpty || upd.isEmpty then s
    else
      { s with
        tweets := s.tweets.map (fun t =>
          if t.id == cid then { t with content := upd } else t)
        pendingTweetUpdate := none }
  | _, _ => s

/-- `rejectTweetUpdate` (page lines 262-264). -/
def rejectTweetUpdate (s : PageState) : PageState :=
  { s with pendingTweetUpdate := none }

/-- The Previous button handler (page line 449):
`setPageIndex(Math.max(0, pageIndex - 1))`. -/
def prevPage (s : PageState) : PageState :=
  { s with pageIndex := max 0 (s.pageIndex - 1) }

/-- The Next button handler (page line 459):
`setPageIndex(Math.min(highlights.length - 1, pageIndex + 1))`. -/
def nextPage (s : PageState) : PageState :=
  { s with pageIndex := min ((s.highlights.length : Int) - 1) (s.pageIndex + 1) }

/-- The localStorage key used by `EditorModal` for conversation
persistence: the template literal is `mem_` followed by the session id;
the entity being edited does not appear in the key. -/
def convKey (sessionId : String) : String := "mem_" ++ sessionId

/-- Persisting a conversation for `(sessionId, entityId)`: the
`useEffect` in `EditorModal` writes the history under `convKey sessionId`;
the entity id is not part of the key. -/
def persistConv (store : List (String × List Turn)) (sessionId : String)
    (_entityId : String) (h : List Turn) : List (String × List Turn) :=
  recordSet store (convKey sessionId) h

/-- Rehydrating a conversation for `(sessionId, entityId)`: the mount
`useEffect` in `EditorModal` reads `convKey sessionId`. -/
def rehydrateConv (store : List (String × List Turn)) (sessionId : String)
    (_entityId : String) : Option (List Turn) :=
  recordGet store (convKey sessionId)

/-- Looking up a key right after a keyed update returns the value just
written (with the key present the in-place replacement is found; with the
key absent the appended pair is found). -/
theorem recordGet_recordSet {α : Type} (r : List (String × α)) (k : String)
    (v : α) : recordGet (recordSet r k v) k = some v := by
  unfold recordSet recordGet
  by_cases h : r.any (fun p => p.1 == k)
  · rw [if_pos h]
    induction r with
    | nil => simp at h
    | cons p rest ih =>
      by_cases hp : p.1 == k
      · simp [List.find?, hp]
      · have hr : rest.any (fun p => p.1 == k) = true := by
          simpa [List.any_cons, hp] using h
        simpa [List.find?, hp] using ih hr
  · rw [if_neg h]
    induction r with
    | nil => simp [List.find?]
    | cons p rest ih =>
      have hp : (p.1 == k) = false := by
        by_contra hc
        exact h (by simp [List.any_cons, eq_true_of_ne_false hc])
      have hr : ¬ rest.any (fun p => p.1 == k) = true := by
        intro hc
        exact h (by simp [List.any_cons, hc])
      simpa [List.find?, hp] using ih hr

/-! ## Concrete example data used by witnesses and counterexamples -/

/-- A sample generated tweet. -/
def tw1 : Tweet :=
  { id := "t1", content := "first tweet", summary_title := "A",
    summary_link := "http://a", summary_source := "SrcA" }

/-- A second sample generated tweet. -/
def tw2 : Tweet :=
  { id := "t2", content := "second tweet", summary_title := "B",
    summary_link := "http://b", summary_source := "SrcB" }

/-- A sample user turn. -/
def turnU : Turn := { role := "user", content := "shorten it" }

/-- A sample assistant turn. -/
def turnA : Turn := { role := "assistant", content := "done" }

/-- A sample article. -/
def artA : Article :=
  { title := "A", link := "http://a", summary := none,
    published := none, source := some "SrcA" }

/-- A state with six selected articles (auto-select after a six-article
fetch). -/
def exSel6 : PageState :=
  { initialState "s" with
    selectedArticles := ["u1", "u2", "u3", "u4", "u5", "u6"] }

/-- A state with an empty selection and no articles. -/
def exSel0 : PageState := initialState "s"

/-- A state holding a conversation, a pending proposal and an active edit
target, used to probe what `resetSummaries` leaves behind. -/
def exReset : PageState :=
  { initialState "s" with
    tweets := [tw1]
    currentEditingTweetId := some "t1"
    tweetConversations := [("t1", [turnU, turnA])]
    pendingTweetUpdate := some "proposed text" }

/-- A 281-character proposed tweet text. -/
def longText : String := String.mk (List.replicate 281 'a')

/-- A state with tweet `t1` active and a 281-character pending proposal. -/
def exLong : PageState :=
  { initialState "s" with
    tweets := [tw1]
    currentEditingTweetId := some "t1"
    pendingTweetUpdate := some longText }

/-- A state with tweet `t1` active, a recorded conversation for it, and an
edit request outstanding. -/
def exSend : PageState :=
  { initialState "s" with
    tweets := [tw1, tw2]
    currentEditingTweetId := some "t1"
    tweetConversations := [("t1", [turnU])] }

/-- The edit-service response for the outstanding request of `exSend`. -/
def respSend : EditResponse :=
  { new_tweet := "NEW TWEET", conversation_history := [turnU, turnA],
    ai_response := "ok" }

/-- Five sample highlights. -/
def fiveHighlights : List Highlight :=
  [ { title := "h1", link := "l1", source := none, summary := "s1" },
    { title := "h2", link := "l2", source := none, summary := "s2" },
    { title := "h3", link := "l3", source := none, summary := "s3" },
    { title := "h4", link := "l4", source := none, summary := "s4" },
    { title := "h5", link := "l5", source := none, summary := "s5" } ]

/-- Two sample highlights. -/
def twoHighlights : List Highlight := fiveHighlights.take 2

/-- A summaries-mode state: five highlights with the cursor on the last. -/
def exPag : PageState :=
  { initialState "s" with
    summariesMode := true
    highlights := fiveHighlights
    pageIndex := 4 }

/-- A state whose tweet-generation request is still in flight. -/
def exBusy : PageState :=
  { initialState "s" with
    highlights := twoHighlights
    loadingTweets := true
    loadingSummaries := true
    loadingNewsletter := true
    selectedArticles := ["u1"] }

/-- A first sample conversation history. -/
def histA : List Turn := [turnU]

/-- A second, different sample conversation history. -/
def histB : List Turn := [turnU, turnA]

/-! ## Claim C1 -/

/-- Claim C1, counterexample: with 0 selected articles `getHighlights`
does not raise the selection-limit condition and does issue the backend
call (and sets the loading flag), contradicting the claim that an empty
selection fails fast with `SelectionLimitExceeded` and no network call. -/
theorem claim_C1_counterexample :
    exSel0.selectedArticles.length = 0 ∧
    (getHighlightsStart exSel0).2 ≠ GetHighlightsStart.limitExceeded ∧
    getHighlightsStart exSel0 =
      ({ exSel0 with loadingSummaries := true }, GetHighlightsStart.call []) := by
  refine ⟨rfl, by decide, by decide⟩

/-- Claim C1 (amended): `summarizeSelected` (`getHighlights`) fails fast
with the selection-limit condition, no backend call and no state change
exactly when more than 5 articles are selected; with 5 or fewer selected
articles — including zero, which is prevented only by the disabled button
in the UI, not by the function — the call proceeds with the selected
article objects and only the loading flag is set. -/
theorem claim_C1_amended (s : PageState) :
    (5 < s.selectedArticles.length →
      getHighlightsStart s = (s, GetHighlightsStart.limitExceeded)) ∧
    (s.selectedArticles.length ≤ 5 →
      getHighlightsStart s =
        ({ s with loadingSummaries := true },
         GetHighlightsStart.call
           (s.articles.filter (fun a => s.selectedArticles.contains a.link)))) := by
  constructor
  · intro h
    unfold getHighlightsStart
    rw [if_pos h]
  · intro h
    unfold getHighlightsStart
    rw [if_neg (Nat.not_lt.mpr h)]

/-- Claim C1, witness: the amended theorem applied at a six-article
selection (fail fast) and at the empty selection (call proceeds). -/
theorem claim_C1_witness :
    getHighlightsStart exSel6 = (exSel6, GetHighlightsStart.limitExceeded) ∧
    getHighlightsStart exSel0 =
      ({ exSel0 with loadingSummaries := true }, GetHighlightsStart.call []) := by
  refine ⟨(claim_C1_amended exSel6).1 (by decide),
    ((claim_C1_amended exSel0).2 (by decide)).trans (by decide)⟩

/-! ## Claim C2 -/

/-- Claim C2, counterexample: a pending 281-character proposal is
committed by `acceptTweetUpdate` — the tweet content is replaced and the
proposal cleared — contradicting the claim that over-280-character
proposals are refused and stay pending. -/
theorem claim_C2_counterexample :
    280 < longText.length ∧
    (acceptTweetUpdate exLong).tweets = [{ tw1 with content := longText }] ∧
    (acceptTweetUpdate exLong).pendingTweetUpdate = none := by
  refine ⟨by decide, by decide, by decide⟩

/-- Claim C2 (amended): `acceptTweetUpdate` applies no length gate at
all.  For every state with an active edit target and a pending proposal
(both non-empty strings), accept replaces the active tweet's content with
the proposal text and clears the proposal, whatever the proposal's length
— the 280-character refusal described by the spec does not exist in the
code. -/
theorem claim_C2_amended (s : PageState) (cid upd : String)
    (h1 : s.currentEditingTweetId = some cid)
    (h2 : s.pendingTweetUpdate = some upd)
    (h3 : cid.isEmpty = false) (h4 : upd.isEmpty = false) :
    (acceptTweetUpdate s).tweets =
      s.tweets.map (fun t => if t.id == cid then { t with content := upd } else t) ∧
    (acceptTweetUpdate s).pendingTweetUpdate = none ∧
    (acceptTweetUpdate s).tweetConversations = s.tweetConversations ∧
    (acceptTweetUpdate s).currentEditingTweetId = s.currentEditingTweetId := by
  unfold acceptTweetUpdate
  rw [h1, h2]
  simp [h3, h4]

/-- Claim C2, witness: the amended theorem applied at the 281-character
proposal state. -/
theorem claim_C2_witness :
    280 < longText.length ∧
    (acceptTweetUpdate exLong).tweets =
      exLong.tweets.map (fun t =>
        if t.id == "t1" then { t with content := longText } else t) ∧
    (acceptTweetUpdate exLong).pendingTweetUpdate = none := by
  have h := claim_C2_amended exLong "t1" longText rfl rfl (by decide) (by decide)
  exact ⟨by decide, h.1, h.2.1⟩

/-! ## Claim C3 -/

/-- Claim C3, counterexample: after `resetSummaries` the per-entity
conversation history, the pending proposal, and the active edit target of
`exReset` are all still present, contradicting the claim that reset
clears every conversation and any pending proposal. -/
theorem claim_C3_counterexample :
    (resetSummaries exReset).tweetConversations = [("t1", [turnU, turnA])] ∧
    (resetSummaries exReset).pendingTweetUpdate = some "proposed text" ∧
    (resetSummaries exReset).currentEditingTweetId = some "t1" := by
  refine ⟨rfl, rfl, rfl⟩

/-- Claim C3 (amended): `resetSummaries` clears the Article list, the
digest summary, the SocialPost collection, the Newsletter, the Highlight
list, the selection set and the pagination cursor, and returns the
pipeline to the idle presentation — but it leaves every per-entity
conversation history, any pending proposal, and the active edit target
untouched. -/
theorem claim_C3_amended (s : PageState) :
    (resetSummaries s).summariesMode = false ∧
    (resetSummaries s).summary = "" ∧
    (resetSummaries s).articles = [] ∧
    (resetSummaries s).tweets = [] ∧
    (resetSummaries s).newsletterHtml = "" ∧
    (resetSummaries s).pageIndex = 0 ∧
    (resetSummaries s).highlights = [] ∧
    (resetSummaries s).selectedArticles = [] ∧
    (resetSummaries s).isPaginated = true ∧
    (resetSummaries s).tweetConversations = s.tweetConversations ∧
    (resetSummaries s).pendingTweetUpdate = s.pendingTweetUpdate ∧
    (resetSummaries s).currentEditingTweetId = s.currentEditingTweetId :=
  ⟨rfl, rfl, rfl, rfl, rfl, rfl, rfl, rfl, rfl, rfl, rfl, rfl⟩

/-! ## Claim C4 -/

/-- Claim C4, counterexample: persisting a conversation for entity
`post-1`, then one for entity `post-2` in the same session, then
rehydrating `post-1` returns `post-2`'s turns — the storage key contains
only the session id, so distinct entity ids in one session overwrite each
other, contradicting the claimed (session, entityId) keying. -/
theorem claim_C4_counterexample :
    rehydrateConv
      (persistConv (persistConv [] "s1" "post-1" histA) "s1" "post-2" histB)
      "s1" "post-1" = some histB ∧ histB ≠ histA := by
  refine ⟨by decide, by decide⟩

/-- Claim C4 (amended): the durable-store key is derived from the session
id alone.  Persisting then rehydrating under the same (session, entity)
pair does reproduce exactly the stored ordered turn list, but the key
ignores the entity id entirely, so conversations of distinct entity ids
within one session share a single slot and overwrite each other. -/
theorem claim_C4_amended :
    (∀ (store : List (String × List Turn)) (sid eid : String)
      (hist : List Turn),
      rehydrateConv (persistConv store sid eid hist) sid eid = some hist) ∧
    (∀ (store : List (String × List Turn)) (sid e1 e2 : String)
      (hist : List Turn),
      persistConv store sid e1 hist = persistConv store sid e2 hist) := by
  constructor
  · intro store sid eid hist
    exact recordGet_recordSet store (convKey sid) hist
  · intro store sid e1 e2 hist
    rfl

/-! ## Claim C5 -/

/-- A state with tweet `t1` active, a pending proposal, and a recorded
conversation, used when switching the active target to `t2`. -/
def exSwitch : PageState :=
  { initialState "s" with
    tweets := [tw1, tw2]
    currentEditingTweetId := some "t1"
    pendingTweetUpdate := some "A proposal"
    tweetConversations := [("t1", [turnU])] }

/-- Claim C5, counterexample: an edit request is outstanding for `t1`;
`openTweetEditor` switches the active target to `t2` before resolution;
when the stale response arrives it is still applied — it creates a
pending proposal and overwrites `t1`'s conversation — contradicting the
claim that a response for a no-longer-active entity is discarded. -/
theorem claim_C5_counterexample :
    (openTweetEditor exSend tw2).currentEditingTweetId = some "t2" ∧
    (sendTweetMessageResolve (openTweetEditor exSend tw2) "t1"
      respSend).pendingTweetUpdate = some "NEW TWEET" ∧
    recordGet (sendTweetMessageResolve (openTweetEditor exSend tw2) "t1"
      respSend).tweetConversations "t1" = some [turnU, turnA] := by
  refine ⟨by decide, by decide, by decide⟩

/-- Claim C5 (amended): the response continuation of `sendTweetMessage`
performs no re-validation at resolution time.  Even when the captured
tweet id is no longer the active edit target, the arriving response is
applied: it fills the (single, untagged) pending-proposal slot and
overwrites the captured entity's conversation entry; committed tweet
content and the active-target field are not touched by the continuation
itself. -/
theorem claim_C5_amended (s : PageState) (cid : String) (resp : EditResponse)
    (h : s.currentEditingTweetId ≠ some cid) :
    (sendTweetMessageResolve s cid resp).pendingTweetUpdate =
      some resp.new_tweet ∧
    recordGet (sendTweetMessageResolve s cid resp).tweetConversations cid =
      some resp.conversation_history ∧
    (sendTweetMessageResolve s cid resp).tweets = s.tweets ∧
    (sendTweetMessageResolve s cid resp).currentEditingTweetId =
      s.currentEditingTweetId := by
  refine ⟨rfl, ?_, rfl, rfl⟩
  exact recordGet_recordSet s.tweetConversations cid resp.conversation_history

/-- Claim C5, witness: the amended theorem applied after the switch from
`t1` to `t2`, with the stale response for `t1` arriving last. -/
theorem claim_C5_witness :
    (sendTweetMessageResolve (openTweetEditor exSend tw2) "t1"
      respSend).pendingTweetUpdate = some respSend.new_tweet ∧
    recordGet (sendTweetMessageResolve (openTweetEditor exSend tw2) "t1"
      respSend).tweetConversations "t1" = some respSend.conversation_history := by
  have h := claim_C5_amended (openTweetEditor exSend tw2) "t1" respSend (by decide)
  exact ⟨h.1, h.2.1⟩

/-! ## Claim C6 -/

/-- Claim C6, counterexample: with the cursor at index 4 on a 5-item
highlight list, replacing the list by a 2-item one sets the cursor to 0,
not to the claimed clamped index 1. -/
theorem claim_C6_counterexample :
    exPag.highlights.length = 5 ∧ exPag.pageIndex = 4 ∧
    twoHighlights.length = 2 ∧
    (getHighlightsResolve exPag twoHighlights).pageIndex = 0 ∧
    (getHighlightsResolve exPag twoHighlights).pageIndex ≠ 1 := by
  refine ⟨by decide, rfl, by decide, rfl, by decide⟩

/-- Claim C6 (amended): whenever the Highlight list is replaced through
the `getHighlights` continuation, the cursor is reset to 0 — not clamped
to the new length (so 5 items → 2 items at cursor 4 yields 0, and also 0
for an empty new list); the Next and Previous handlers do clamp to
`[0, length-1]` whenever the list is non-empty and the cursor is in
range. -/
theorem claim_C6_amended :
    (∀ (s : PageState) (items : List Highlight),
      (getHighlightsResolve s items).pageIndex = 0) ∧
    (∀ s : PageState, s.highlights ≠ [] → 0 ≤ s.pageIndex →
      s.pageIndex ≤ (s.highlights.length : Int) - 1 →
      0 ≤ (nextPage s).pageIndex ∧
      (nextPage s).pageIndex ≤ (s.highlights.length : Int) - 1 ∧
      0 ≤ (prevPage s).pageIndex ∧
      (prevPage s).pageIndex ≤ (s.highlights.length : Int) - 1) := by
  constructor
  · intro s items
    rfl
  · intro s hne h0 h1
    have hlen : 0 < s.highlights.length := List.length_pos.mpr hne
    have hlen1 : (1 : Int) ≤ (s.highlights.length : Int) := by exact_mod_cast hlen
    refine ⟨?_, ?_, ?_, ?_⟩
    · show 0 ≤ min ((s.highlights.length : Int) - 1) (s.pageIndex + 1)
      omega
    · show min ((s.highlights.length : Int) - 1) (s.pageIndex + 1) ≤
        (s.highlights.length : Int) - 1
      omega
    · show 0 ≤ max 0 (s.pageIndex - 1)
      omega
    · show max 0 (s.pageIndex - 1) ≤ (s.highlights.length : Int) - 1
      omega

/-- Claim C6, witness: the amended theorem applied at the 5-item list
with the cursor on index 4, replaced by the 2-item list. -/
theorem claim_C6_witness :
    (getHighlightsResolve exPag twoHighlights).pageIndex = 0 ∧
    (0 ≤ (nextPage exPag).pageIndex ∧
     (nextPage exPag).pageIndex ≤ (exPag.highlights.length : Int) - 1 ∧
     0 ≤ (prevPage exPag).pageIndex ∧
     (prevPage exPag).pageIndex ≤ (exPag.highlights.length : Int) - 1) :=
  ⟨claim_C6_amended.1 exPag twoHighlights,
   claim_C6_amended.2 exPag (by decide) (by decide) (by decide)⟩

/-! ## Claim C7 -/

/-- Claim C7, counterexample: in a state whose tweets, newsletter and
summaries requests are all marked in flight, invoking `makeTweets`,
`makeNewsletter` or `getHighlights` again still issues the backend call
instead of being the claimed Busy no-op. -/
theorem claim_C7_counterexample :
    exBusy.loadingTweets = true ∧
    (makeTweetsStart exBusy).2 =
      some { session_id := "s", summaries := twoHighlights } ∧
    exBusy.loadingNewsletter = true ∧
    ((makeNewsletterStart exBusy).2).isSome = true ∧
    exBusy.loadingSummaries = true ∧
    (getHighlightsStart exBusy).2 = GetHighlightsStart.call [] := by
  refine ⟨rfl, by decide, rfl, by decide, rfl, by decide⟩

/-- Claim C7 (amended): the operation bodies never consult their own
in-flight flags.  Even with the flag already set, `makeTweets`,
`makeNewsletter` and (for a selection within the limit) `getHighlights`
issue their backend calls again; duplicate invocation is prevented only
by disabling the triggering buttons in the UI, and no Busy signal exists
in the code. -/
theorem claim_C7_amended (s : PageState)
    (ht : s.loadingTweets = true) (hn : s.loadingNewsletter = true)
    (hs : s.loadingSummaries = true) (hsel : s.selectedArticles.length ≤ 5) :
    (makeTweetsStart s).2 =
      some { session_id := s.sessionId, summaries := s.highlights } ∧
    (makeNewsletterStart s).2 =
      some { session_id := s.sessionId, summary_markdown := s.summary,
             articles := s.articles } ∧
    (getHighlightsStart s).2 =
      GetHighlightsStart.call
        (s.articles.filter (fun a => s.selectedArticles.contains a.link)) := by
  refine ⟨rfl, rfl, ?_⟩
  unfold getHighlightsStart
  rw [if_neg (Nat.not_lt.mpr hsel)]

/-- Claim C7, witness: the amended theorem applied at the all-flags-set
state. -/
theorem claim_C7_witness :
    (makeTweetsStart exBusy).2 =
      some { session_id := exBusy.sessionId, summaries := exBusy.highlights } ∧
    (makeNewsletterStart exBusy).2 =
      some { session_id := exBusy.sessionId,
             summary_markdown := exBusy.summary,
             articles := exBusy.articles } ∧
    (getHighlightsStart exBusy).2 =
      GetHighlightsStart.call
        (exBusy.articles.filter (fun a => exBusy.selectedArticles.contains a.link)) :=
  claim_C7_amended exBusy rfl rfl rfl (by decide)

/-! ## Claim C8 -/

/-- Claim C8: while entity A is the active edit target with an unresolved
proposal, `openTweetEditor` on a different tweet B discards the proposal
without committing it (all committed tweet contents, and in particular
A's, are unchanged), clears A's active status and makes B the sole active
edit target. -/
theorem claim_C8 (s : PageState) (a p : String) (b : Tweet)
    (ha : s.currentEditingTweetId = some a)
    (hp : s.pendingTweetUpdate = some p)
    (hne : a ≠ b.id) :
    (openTweetEditor s b).currentEditingTweetId = some b.id ∧
    (openTweetEditor s b).pendingTweetUpdate = none ∧
    (openTweetEditor s b).tweets = s.tweets ∧
    (openTweetEditor s b).tweetConversations = s.tweetConversations := by
  have hc : (s.currentEditingTweetId == some b.id) = false := by
    rw [ha]
    exact beq_eq_false_iff_ne.mpr (fun h => hne (Option.some.inj h))
  simp [openTweetEditor, hc]

/-- Claim C8, witness: the theorem applied while `t1` is active with a
pending proposal and the editor is switched to `t2`. -/
theorem claim_C8_witness :
    (openTweetEditor exSwitch tw2).currentEditingTweetId = some tw2.id ∧
    (openTweetEditor exSwitch tw2).pendingTweetUpdate = none ∧
    (openTweetEditor exSwitch tw2).tweets = exSwitch.tweets ∧
    (openTweetEditor exSwitch tw2).tweetConversations =
      exSwitch.tweetConversations :=
  claim_C8 exSwitch "t1" "A proposal" tw2 rfl rfl (by decide)

/-! ## Claim C9 -/

/-- Claim C9: `rejectTweetUpdate` clears the pending proposal and changes
nothing else — committed tweet contents, every conversation history, the
active target and the highlight list are unchanged, and the whole state
equals the input with only the pending slot cleared — so a subsequent
`sendTweetMessage` builds exactly the same request payload (including the
full prior conversation) as before the rejection. -/
theorem claim_C9 (s : PageState) :
    (rejectTweetUpdate s).pendingTweetUpdate = none ∧
    (rejectTweetUpdate s).tweets = s.tweets ∧
    (rejectTweetUpdate s).tweetConversations = s.tweetConversations ∧
    (rejectTweetUpdate s).currentEditingTweetId = s.currentEditingTweetId ∧
    (rejectTweetUpdate s).highlights = s.highlights ∧
    rejectTweetUpdate s = { s with pendingTweetUpdate := none } ∧
    (∀ m : String,
      sendTweetMessageStart (rejectTweetUpdate s) m = sendTweetMessageStart s m) :=
  ⟨rfl, rfl, rfl, rfl, rfl, rfl, fun _ => rfl⟩

/-! ## Claim C10 -/

/-- Claim C10: when there is no active edit target or no pending
proposal, `acceptTweetUpdate` leaves the state exactly unchanged. -/
theorem claim_C10 (s : PageState)
    (h : s.currentEditingTweetId = none ∨ s.pendingTweetUpdate = none) :
    acceptTweetUpdate s = s := by
  cases hc : s.currentEditingTweetId <;> cases hp : s.pendingTweetUpdate <;>
    simp_all [acceptTweetUpdate]

/-- Claim C10, witness: the theorem applied at the initial state, which
has no active edit target. -/
theorem claim_C10_witness :
    acceptTweetUpdate (initialState "s") = initialState "s" :=
  claim_C10 (initialState "s") (Or.inl rfl)

end AINewsletter
